import Mathlib

/-!
Verification of the batch-selection-and-action subsystem and the
password-strength heuristic of the inventory front-end scripts
(enhanced-validation.js and enhanced-validation-part2.js).

The JavaScript is shallowly embedded: synthesized hidden forms become the
`HtmlForm` structure, checkbox state becomes lists of booleans or `SelRow`
records, and the event handlers become pure state-transition functions
translated line by line from the source.
-/

/-- A hidden input field of a synthesized form: name, value and input type. -/
structure FormField where
  name : String
  value : String
  fieldType : String
  deriving DecidableEq

/-- A synthesized form as built by the submission helpers: HTTP method,
action URL and the input fields in document order. -/
structure HtmlForm where
  method : String
  action : String
  fields : List FormField
  deriving DecidableEq

/-- The CSRF token input appended first by every submission helper:
name `csrfmiddlewaretoken`, value copied from the page's existing token. -/
def csrfField (tok : String) : FormField :=
  { name := "csrfmiddlewaretoken", value := tok, fieldType := "hidden" }

/-- The per-ID hidden inputs appended by `ids.forEach` in each submission
helper: one field named `selected_ids` per selected ID, in order. -/
def idFields (ids : List String) : List FormField :=
  ids.map (fun id => { name := "selected_ids", value := id, fieldType := "hidden" })

/-- Embedding of `exportSelectedItems(ids)`: POST form to
`window.location.pathname + 'export/'` with the CSRF token then the IDs. -/
def exportSelectedItems (pathname tok : String) (ids : List String) : HtmlForm :=
  { method := "POST", action := pathname ++ "export/",
    fields := csrfField tok :: idFields ids }

/-- Embedding of `deleteSelectedItems(ids)`: POST form to
`window.location.pathname + 'batch-delete/'` with the CSRF token then the IDs. -/
def deleteSelectedItems (pathname tok : String) (ids : List String) : HtmlForm :=
  { method := "POST", action := pathname ++ "batch-delete/",
    fields := csrfField tok :: idFields ids }

/-- Embedding of `confirmDeleteSelected(ids)`: the SweetAlert dialog result
decides whether `deleteSelectedItems` runs; `confirmed` is
`result.isConfirmed`. Returns the submitted form, if any. -/
def confirmDeleteSelected (confirmed : Bool) (pathname tok : String)
    (ids : List String) : Option HtmlForm :=
  if confirmed then some (deleteSelectedItems pathname tok ids) else none

/-- Embedding of `submitPriceAdjustment(ids, type, value, field)`: POST form
to `window.location.pathname + 'batch-adjust-price/'` with the CSRF token,
the three adjustment parameters, then the IDs. -/
def submitPriceAdjustment (pathname tok : String) (ids : List String)
    (adjType adjValue adjField : String) : HtmlForm :=
  { method := "POST", action := pathname ++ "batch-adjust-price/",
    fields := csrfField tok
      :: { name := "adjustment_type", value := adjType, fieldType := "hidden" }
      :: { name := "adjustment_value", value := adjValue, fieldType := "hidden" }
      :: { name := "adjustment_field", value := adjField, fieldType := "hidden" }
      :: idFields ids }

/-- Embedding of `submitStockAdjustment(ids, type, value, notes)`: POST form
to `window.location.pathname + 'batch-adjust-stock/'` with the CSRF token,
the adjustment parameters, then the IDs. -/
def submitStockAdjustment (pathname tok : String) (ids : List String)
    (adjType adjValue adjNotes : String) : HtmlForm :=
  { method := "POST", action := pathname ++ "batch-adjust-stock/",
    fields := csrfField tok
      :: { name := "adjustment_type", value := adjType, fieldType := "hidden" }
      :: { name := "adjustment_value", value := adjValue, fieldType := "hidden" }
      :: { name := "adjustment_notes", value := adjNotes, fieldType := "hidden" }
      :: idFields ids }

/-- Helper: filtering the ID fields by name `selected_ids` keeps all of them. -/
theorem idFields_filter_selected (ids : List String) :
    (idFields ids).filter (fun fl => decide (fl.name = "selected_ids")) = idFields ids := by
  induction ids with
  | nil => rfl
  | cons id rest ih => simp [idFields]

/-- Helper: filtering the ID fields by any other name keeps none of them. -/
theorem idFields_filter_other (n : String) (ids : List String) (hn : n ≠ "selected_ids") :
    (idFields ids).filter (fun fl => decide (fl.name = n)) = [] := by
  induction ids with
  | nil => rfl
  | cons id rest ih =>
    simp [idFields] at ih ⊢
    exact ⟨fun h => absurd h.symm hn, ih⟩

/-- Helper: the values of the ID fields are exactly the IDs, in order. -/
theorem idFields_map_value (ids : List String) :
    (idFields ids).map (fun fl => fl.value) = ids := by
  induction ids with
  | nil => rfl
  | cons id rest ih => simp [idFields] at ih ⊢; exact ih

/-- Helper: every ID field is named `selected_ids` and is hidden. -/
theorem idFields_name (ids : List String) (fl : FormField) (h : fl ∈ idFields ids) :
    fl.name = "selected_ids" ∧ fl.fieldType = "hidden" := by
  induction ids with
  | nil => cases h
  | cons id rest ih =>
    simp [idFields] at h
    rcases h with h | h
    · subst h; exact ⟨rfl, rfl⟩
    · exact ih (by simp [idFields]; exact h)

/-- Claim C1: with selected IDs ["7","9"] and action deleteSelected, once the
confirmation dialog is confirmed the submitted form is a POST to
pathname ++ "batch-delete/" whose payload holds exactly two hidden
`selected_ids` fields with values "7" and "9", one `csrfmiddlewaretoken`
field carrying the page token verbatim, and no other fields. -/
theorem deleteSelected_confirmed_payload (pathname tok : String) :
    confirmDeleteSelected true pathname tok ["7", "9"]
      = some (deleteSelectedItems pathname tok ["7", "9"]) ∧
    (deleteSelectedItems pathname tok ["7", "9"]).method = "POST" ∧
    (deleteSelectedItems pathname tok ["7", "9"]).action = pathname ++ "batch-delete/" ∧
    (deleteSelectedItems pathname tok ["7", "9"]).fields.filter
        (fun fl => decide (fl.name = "selected_ids"))
      = [{ name := "selected_ids", value := "7", fieldType := "hidden" },
         { name := "selected_ids", value := "9", fieldType := "hidden" }] ∧
    (deleteSelectedItems pathname tok ["7", "9"]).fields.filter
        (fun fl => decide (fl.name = "csrfmiddlewaretoken"))
      = [{ name := "csrfmiddlewaretoken", value := tok, fieldType := "hidden" }] ∧
    ∀ fl ∈ (deleteSelectedItems pathname tok ["7", "9"]).fields,
      (fl.name = "csrfmiddlewaretoken" ∨ fl.name = "selected_ids") ∧ fl.fieldType = "hidden" := by
  refine ⟨rfl, rfl, rfl, ?_, ?_, ?_⟩
  · rfl
  · rfl
  · intro fl hfl
    simp [deleteSelectedItems, idFields, csrfField] at hfl
    rcases hfl with h | h | h <;> subst h <;> simp

/-- Witness for C1: the theorem instantiated at a concrete path and token. -/
theorem deleteSelected_confirmed_payload_instance :
    confirmDeleteSelected true "/p/" "t0" ["7", "9"]
      = some (deleteSelectedItems "/p/" "t0" ["7", "9"]) ∧
    (deleteSelectedItems "/p/" "t0" ["7", "9"]).method = "POST" ∧
    (deleteSelectedItems "/p/" "t0" ["7", "9"]).action = "/p/" ++ "batch-delete/" ∧
    (deleteSelectedItems "/p/" "t0" ["7", "9"]).fields.filter
        (fun fl => decide (fl.name = "selected_ids"))
      = [{ name := "selected_ids", value := "7", fieldType := "hidden" },
         { name := "selected_ids", value := "9", fieldType := "hidden" }] ∧
    (deleteSelectedItems "/p/" "t0" ["7", "9"]).fields.filter
        (fun fl => decide (fl.name = "csrfmiddlewaretoken"))
      = [{ name := "csrfmiddlewaretoken", value := "t0", fieldType := "hidden" }] ∧
    ∀ fl ∈ (deleteSelectedItems "/p/" "t0" ["7", "9"]).fields,
      (fl.name = "csrfmiddlewaretoken" ∨ fl.name = "selected_ids") ∧ fl.fieldType = "hidden" :=
  deleteSelected_confirmed_payload "/p/" "t0"

/-- Claim C4: for adjustment type percentage, value 10, field price and any
non-empty ID list, the price-adjustment form is a POST to
pathname ++ "batch-adjust-price/" carrying adjustment_type=percentage,
adjustment_value=10, adjustment_field=price, one selected_ids field per ID,
the csrfmiddlewaretoken field, and no field with any other name. -/
theorem price_adjustment_payload (pathname tok : String) (ids : List String)
    (h : ids ≠ []) :
    (submitPriceAdjustment pathname tok ids "percentage" "10" "price").method = "POST" ∧
    (submitPriceAdjustment pathname tok ids "percentage" "10" "price").action
      = pathname ++ "batch-adjust-price/" ∧
    (submitPriceAdjustment pathname tok ids "percentage" "10" "price").fields.filter
        (fun fl => decide (fl.name = "adjustment_type"))
      = [{ name := "adjustment_type", value := "percentage", fieldType := "hidden" }] ∧
    (submitPriceAdjustment pathname tok ids "percentage" "10" "price").fields.filter
        (fun fl => decide (fl.name = "adjustment_value"))
      = [{ name := "adjustment_value", value := "10", fieldType := "hidden" }] ∧
    (submitPriceAdjustment pathname tok ids "percentage" "10" "price").fields.filter
        (fun fl => decide (fl.name = "adjustment_field"))
      = [{ name := "adjustment_field", value := "price", fieldType := "hidden" }] ∧
    ((submitPriceAdjustment pathname tok ids "percentage" "10" "price").fields.filter
        (fun fl => decide (fl.name = "selected_ids"))).map (fun fl => fl.value) = ids ∧
    (submitPriceAdjustment pathname tok ids "percentage" "10" "price").fields.filter
        (fun fl => decide (fl.name = "csrfmiddlewaretoken"))
      = [{ name := "csrfmiddlewaretoken", value := tok, fieldType := "hidden" }] ∧
    ∀ fl ∈ (submitPriceAdjustment pathname tok ids "percentage" "10" "price").fields,
      fl.name ∈ ["csrfmiddlewaretoken", "adjustment_type", "adjustment_value",
        "adjustment_field", "selected_ids"] := by
  refine ⟨rfl, rfl, ?_, ?_, ?_, ?_, ?_, ?_⟩
  · simp [submitPriceAdjustment, csrfField, List.filter_cons]
    intro fl hfl he
    rw [(idFields_name ids fl hfl).1] at he
    exact absurd he (by decide)
  · simp [submitPriceAdjustment, csrfField, List.filter_cons]
    intro fl hfl he
    rw [(idFields_name ids fl hfl).1] at he
    exact absurd he (by decide)
  · simp [submitPriceAdjustment, csrfField, List.filter_cons]
    intro fl hfl he
    rw [(idFields_name ids fl hfl).1] at he
    exact absurd he (by decide)
  · simp [submitPriceAdjustment, csrfField, List.filter_cons]
    rw [idFields_filter_selected, idFields_map_value]
  · simp [submitPriceAdjustment, csrfField, List.filter_cons]
    intro fl hfl he
    rw [(idFields_name ids fl hfl).1] at he
    exact absurd he (by decide)
  · intro fl hfl
    simp [submitPriceAdjustment, csrfField] at hfl
    rcases hfl with h | h | h | h | h
    · subst h; simp
    · subst h; simp
    · subst h; simp
    · subst h; simp
    · have := (idFields_name ids fl h).1
      simp [this]

/-- Witness for C4: the theorem instantiated at a concrete path, token and
singleton ID list, with the non-emptiness hypothesis discharged there. -/
theorem price_adjustment_payload_instance :
    (submitPriceAdjustment "/p/" "t0" ["3"] "percentage" "10" "price").method = "POST" ∧
    (submitPriceAdjustment "/p/" "t0" ["3"] "percentage" "10" "price").action
      = "/p/" ++ "batch-adjust-price/" ∧
    (submitPriceAdjustment "/p/" "t0" ["3"] "percentage" "10" "price").fields.filter
        (fun fl => decide (fl.name = "adjustment_type"))
      = [{ name := "adjustment_type", value := "percentage", fieldType := "hidden" }] ∧
    (submitPriceAdjustment "/p/" "t0" ["3"] "percentage" "10" "price").fields.filter
        (fun fl => decide (fl.name = "adjustment_value"))
      = [{ name := "adjustment_value", value := "10", fieldType := "hidden" }] ∧
    (submitPriceAdjustment "/p/" "t0" ["3"] "percentage" "10" "price").fields.filter
        (fun fl => decide (fl.name = "adjustment_field"))
      = [{ name := "adjustment_field", value := "price", fieldType := "hidden" }] ∧
    ((submitPriceAdjustment "/p/" "t0" ["3"] "percentage" "10" "price").fields.filter
        (fun fl => decide (fl.name = "selected_ids"))).map (fun fl => fl.value) = ["3"] ∧
    (submitPriceAdjustment "/p/" "t0" ["3"] "percentage" "10" "price").fields.filter
        (fun fl => decide (fl.name = "csrfmiddlewaretoken"))
      = [{ name := "csrfmiddlewaretoken", value := "t0", fieldType := "hidden" }] ∧
    ∀ fl ∈ (submitPriceAdjustment "/p/" "t0" ["3"] "percentage" "10" "price").fields,
      fl.name ∈ ["csrfmiddlewaretoken", "adjustment_type", "adjustment_value",
        "adjustment_field", "selected_ids"] :=
  price_adjustment_payload "/p/" "t0" ["3"] (by decide)

/-- State of the injected select-all header checkbox: the browser `checked`
and `indeterminate` properties. -/
structure HeaderState where
  checked : Bool
  indeterminate : Bool
  deriving DecidableEq

/-- Number of checked row checkboxes, the length of the
`.select-row:checked` query result for one table. -/
def countChecked (rows : List Bool) : Nat :=
  (rows.filter (fun b => b)).length

/-- Embedding of the row-change handler's last two assignments: recompute the
select-all checkbox from the table's row checkboxes.
`checked = allCheckboxes.length === checkedCheckboxes.length`,
`indeterminate = checked > 0 && checked < all`. -/
def updateSelectAllState (rows : List Bool) : HeaderState :=
  { checked := rows.length == countChecked rows,
    indeterminate := decide (0 < countChecked rows) && decide (countChecked rows < rows.length) }

/-- One augmented table's dynamic selection state: the row checkboxes in
document order and the header checkbox. -/
structure TableState where
  rows : List Bool
  header : HeaderState
  deriving DecidableEq

/-- Embedding of one row checkbox's change event: the user has set checkbox
`i` to `v`, and the change handler then recomputes the select-all state. -/
def rowCheckboxChange (s : TableState) (i : Nat) (v : Bool) : TableState :=
  { rows := s.rows.set i v, header := updateSelectAllState (s.rows.set i v) }

/-- Claim C2: after any row-checkbox change event, the header checkbox is
checked iff every row checkbox is checked (checkedCount = N) and
indeterminate iff some but not all are checked (0 < checkedCount < N). -/
theorem header_state_after_row_change (s : TableState) (i : Nat) (v : Bool) :
    ((rowCheckboxChange s i v).header.checked = true
      ↔ countChecked (rowCheckboxChange s i v).rows = (rowCheckboxChange s i v).rows.length) ∧
    ((rowCheckboxChange s i v).header.indeterminate = true
      ↔ 0 < countChecked (rowCheckboxChange s i v).rows
        ∧ countChecked (rowCheckboxChange s i v).rows < (rowCheckboxChange s i v).rows.length) := by
  constructor
  · simp only [rowCheckboxChange, updateSelectAllState, beq_iff_eq]
    exact eq_comm
  · simp [rowCheckboxChange, updateSelectAllState]

/-- Witness for C2: the theorem instantiated at a concrete two-row table. -/
theorem header_state_after_row_change_instance :
    ((rowCheckboxChange ⟨[false, false], ⟨false, false⟩⟩ 0 true).header.checked = true
      ↔ countChecked (rowCheckboxChange ⟨[false, false], ⟨false, false⟩⟩ 0 true).rows
        = (rowCheckboxChange ⟨[false, false], ⟨false, false⟩⟩ 0 true).rows.length) ∧
    ((rowCheckboxChange ⟨[false, false], ⟨false, false⟩⟩ 0 true).header.indeterminate = true
      ↔ 0 < countChecked (rowCheckboxChange ⟨[false, false], ⟨false, false⟩⟩ 0 true).rows
        ∧ countChecked (rowCheckboxChange ⟨[false, false], ⟨false, false⟩⟩ 0 true).rows
          < (rowCheckboxChange ⟨[false, false], ⟨false, false⟩⟩ 0 true).rows.length) :=
  header_state_after_row_change ⟨[false, false], ⟨false, false⟩⟩ 0 true

/-- Splits a `className` string into its whitespace-separated class tokens,
accumulating the current token in reverse; models CSS class matching. -/
def splitClassesAux : List Char → List Char → List (List Char)
  | [], acc => [acc.reverse]
  | c :: rest, acc =>
    if c == ' ' then acc.reverse :: splitClassesAux rest []
    else splitClassesAux rest (c :: acc)

/-- Whether an element with class attribute `cls` matches the class selector
`name`, as `querySelector('.name')` does. -/
def hasClass (cls name : String) : Bool :=
  (splitClassesAux cls.data []).contains name.data

/-- Static shape of one table for the augmentation step: the class strings of
the header row's th elements (none when the table has no thead tr) and of
each body row's cells. -/
structure TableDom where
  headerRow : Option (List String)
  bodyRows : List (List String)
  deriving DecidableEq

/-- Embedding of `table.querySelector('thead th.select-column')` being
non-null: some header cell carries the marker class. -/
def hasCheckboxColumn (t : TableDom) : Bool :=
  match t.headerRow with
  | none => false
  | some hdr => hdr.any (fun c => hasClass c "select-column")

/-- Embedding of `setupBatchSelection`'s per-table augmentation: when the
marker column is absent and a header row exists, insert a `select-column`
th before the first header cell and a `select-column` td before each body
row's first cell; otherwise leave the table unchanged. -/
def setupBatchSelectionTable (t : TableDom) : TableDom :=
  if hasCheckboxColumn t then t
  else
    match t.headerRow with
    | none => t
    | some hdr =>
      { headerRow := some ("select-column" :: hdr),
        bodyRows := t.bodyRows.map (fun r => "select-column" :: r) }

/-- Claim C6: the augmentation step is idempotent. A table that already has
the marker header class is left unchanged, and in particular running the
step twice equals running it once, so no second checkbox column appears. -/
theorem augmentation_idempotent (t : TableDom) :
    (hasCheckboxColumn t = true → setupBatchSelectionTable t = t) ∧
    setupBatchSelectionTable (setupBatchSelectionTable t) = setupBatchSelectionTable t := by
  constructor
  · intro h
    simp [setupBatchSelectionTable, h]
  · by_cases h : hasCheckboxColumn t = true
    · simp [setupBatchSelectionTable, h]
    · rcases ht : t.headerRow with _ | hdr
      · simp [setupBatchSelectionTable, hasCheckboxColumn, h, ht]
      · have h2 : setupBatchSelectionTable t
            = { headerRow := some ("select-column" :: hdr),
                bodyRows := t.bodyRows.map (fun r => "select-column" :: r) } := by
          simp [setupBatchSelectionTable, h, ht]
        rw [h2]
        have h3 : hasCheckboxColumn
            { headerRow := some ("select-column" :: hdr),
              bodyRows := t.bodyRows.map (fun r => "select-column" :: r) } = true := by
          simp [hasCheckboxColumn]
          exact Or.inl (by decide)
        simp [setupBatchSelectionTable, h3]

/-- Witness for C6: at a concrete already-augmented table, the step leaves
the table unchanged. -/
theorem augmentation_idempotent_instance :
    setupBatchSelectionTable ⟨some ["select-column", "x"], [["select-column", "y"]]⟩
      = ⟨some ["select-column", "x"], [["select-column", "y"]]⟩ :=
  (augmentation_idempotent ⟨some ["select-column", "x"], [["select-column", "y"]]⟩).1 (by decide)

/-- Whether the character list `l` starts with the character list `p`; the
base case of substring matching. -/
def startsWithChars : List Char → List Char → Bool
  | [], _ => true
  | _ :: _, [] => false
  | p :: ps, c :: cs => p == c && startsWithChars ps cs

/-- Whether `sub` occurs as a contiguous sublist of `l`. -/
def hasSubChars (sub : List Char) : List Char → Bool
  | [] => startsWithChars sub []
  | c :: rest => startsWithChars sub (c :: rest) || hasSubChars sub rest

/-- Embedding of `s.includes(sub)` on JavaScript strings. -/
def jsIncludes (s sub : String) : Bool :=
  hasSubChars sub.data s.data

/-- One entry of the batch-action dropdown: text, icon, action key and
optional extra style class, as in the `actions` literal. -/
structure ActionItem where
  text : String
  icon : String
  action : String
  cls : Option String
  deriving DecidableEq

/-- The fixed Batch Export entry. -/
def exportAction : ActionItem :=
  { text := "Batch Export", icon := "bi-download", action := "exportSelected", cls := none }

/-- The fixed Batch Delete entry. -/
def deleteAction : ActionItem :=
  { text := "Batch Delete", icon := "bi-trash", action := "deleteSelected",
    cls := some "text-danger" }

/-- The conditional Batch Adjust Price entry for product pages. -/
def adjustPriceAction : ActionItem :=
  { text := "Batch Adjust Price", icon := "bi-currency-yen", action := "adjustPrice",
    cls := none }

/-- The conditional Batch Adjust Stock entry for inventory pages. -/
def adjustStockAction : ActionItem :=
  { text := "Batch Adjust Stock", icon := "bi-box-seam", action := "adjustStock",
    cls := none }

/-- Embedding of `actions.splice(i, 0, x)`: insert `x` at index `i`. -/
def spliceInsert (l : List ActionItem) (i : Nat) (x : ActionItem) : List ActionItem :=
  l.take i ++ x :: l.drop i

/-- Embedding of the action-list construction in `setupBatchActionButtons`:
the fixed export/delete list, with one page-specific entry spliced in at
index 1 depending on `window.location.pathname`. -/
def buildBatchActions (pathname : String) : List ActionItem :=
  let actions := [exportAction, deleteAction]
  if jsIncludes pathname "/product/" then spliceInsert actions 1 adjustPriceAction
  else if jsIncludes pathname "/inventory/" then spliceInsert actions 1 adjustStockAction
  else actions

/-- Claim C7: the menu always holds Batch Export and Batch Delete; a path
containing "/product/" puts the price-adjust action at index 1 between
them (also when "/inventory/" matches too), otherwise a path containing
"/inventory/" puts the stock-adjust action there, and otherwise no extra
entry is added. -/
theorem action_menu_composition (pathname : String) :
    (jsIncludes pathname "/product/" = true →
      buildBatchActions pathname = [exportAction, adjustPriceAction, deleteAction]) ∧
    (jsIncludes pathname "/product/" = false → jsIncludes pathname "/inventory/" = true →
      buildBatchActions pathname = [exportAction, adjustStockAction, deleteAction]) ∧
    (jsIncludes pathname "/product/" = false → jsIncludes pathname "/inventory/" = false →
      buildBatchActions pathname = [exportAction, deleteAction]) ∧
    exportAction ∈ buildBatchActions pathname ∧ deleteAction ∈ buildBatchActions pathname := by
  refine ⟨?_, ?_, ?_, ?_⟩
  · intro h; simp [buildBatchActions, h, spliceInsert]
  · intro h1 h2; simp [buildBatchActions, h1, h2, spliceInsert]
  · intro h1 h2; simp [buildBatchActions, h1, h2]
  · constructor
    · by_cases h : jsIncludes pathname "/product/" = true
      · simp [buildBatchActions, h, spliceInsert]
      · by_cases h2 : jsIncludes pathname "/inventory/" = true
        · simp [buildBatchActions, h, h2, spliceInsert]
        · simp [buildBatchActions, h, h2]
    · by_cases h : jsIncludes pathname "/product/" = true
      · simp [buildBatchActions, h, spliceInsert]
      · by_cases h2 : jsIncludes pathname "/inventory/" = true
        · simp [buildBatchActions, h, h2, spliceInsert]
        · simp [buildBatchActions, h, h2]

/-- Witness for C7: on a path containing both "/product/" and "/inventory/",
the product action wins the slot at index 1. -/
theorem action_menu_composition_instance :
    buildBatchActions "/inventory/product/list" = [exportAction, adjustPriceAction, deleteAction] :=
  (action_menu_composition "/inventory/product/list").1 (by decide)

/-- One table row as the batch handlers see it: the `data-id` attribute of
the tr (absent when the attribute is missing) and its row checkbox. -/
structure SelRow where
  dataId : Option String
  checked : Bool
  deriving DecidableEq

/-- A page's augmented tables: each table is its list of rows in document
order, and `document.querySelectorAll` traverses the tables in order. -/
abbrev PageTables := List (List SelRow)

/-- Embedding of `handleBatchAction`'s ID collection: all checked row
checkboxes in the whole document, mapped to `row.getAttribute('data-id')
|| ''` and filtered to the truthy (non-empty) values. -/
def selectedIdsOf (page : PageTables) : List String :=
  ((page.flatten.filter (fun r => r.checked)).map (fun r => r.dataId.getD "")).filter
    (fun s => !s.isEmpty)

/-- Per-table variant of the ID collection, used to compare the document-wide
behaviour of the code against per-table aggregation. -/
def selectedIdsOfTable (rows : List SelRow) : List String :=
  ((rows.filter (fun r => r.checked)).map (fun r => r.dataId.getD "")).filter
    (fun s => !s.isEmpty)

/-- Number of checked row checkboxes in one table. -/
def countCheckedRows (rows : List SelRow) : Nat :=
  (rows.filter (fun r => r.checked)).length

/-- Embedding of `document.querySelectorAll('.select-row:checked').length`:
the number of checked row checkboxes in the whole document. -/
def countCheckedPage (page : PageTables) : Nat :=
  (page.flatten.filter (fun r => r.checked)).length

/-- The toast message shown by `handleBatchAction` on an empty selection. -/
def warnEmptyMsg : String := "Please select items to operate on first"

/-- Result of one `handleBatchAction` invocation: the empty-selection warning
toast, one of the four submit/dialog handlers with the collected IDs, or
the console warning for an unknown key. -/
inductive BatchOutcome where
  | warn (msg : String)
  | exportIds (ids : List String)
  | confirmDelete (ids : List String)
  | adjustPriceModal (ids : List String)
  | adjustStockModal (ids : List String)
  | unknownAction (a : String)
  deriving DecidableEq

/-- Embedding of `handleBatchAction(action)`: collect the selected IDs, warn
and stop when none, otherwise dispatch on the action key. -/
def handleBatchAction (action : String) (page : PageTables) : BatchOutcome :=
  let selectedIds := selectedIdsOf page
  if selectedIds.isEmpty then .warn warnEmptyMsg
  else if action == "exportSelected" then .exportIds selectedIds
  else if action == "deleteSelected" then .confirmDelete selectedIds
  else if action == "adjustPrice" then .adjustPriceModal selectedIds
  else if action == "adjustStock" then .adjustStockModal selectedIds
  else .unknownAction action

/-- Claim C3: for every action key, dispatch yields the warning toast (and so
builds no form and opens no dialog) exactly when the filtered selected-ID
list is empty; every submit/dialog outcome needs a non-empty ID list. -/
theorem empty_selection_warns (action : String) (page : PageTables) :
    handleBatchAction action page = .warn warnEmptyMsg ↔ selectedIdsOf page = [] := by
  unfold handleBatchAction
  rcases h : selectedIdsOf page with _ | ⟨id, rest⟩
  · simp
  · simp only [List.isEmpty_cons, if_false, Bool.false_eq_true]
    constructor
    · intro hcontr
      by_cases h1 : action == "exportSelected" <;>
        by_cases h2 : action == "deleteSelected" <;>
          by_cases h3 : action == "adjustPrice" <;>
            by_cases h4 : action == "adjustStock" <;>
              simp [h1, h2, h3, h4] at hcontr
    · intro hcontr; cases hcontr

/-- Witness for C3: with one unchecked row the dispatch of deleteSelected
warns, by the right-to-left direction at a concrete page. -/
theorem empty_selection_warns_instance :
    handleBatchAction "deleteSelected" [[{ dataId := some "1", checked := false }]]
      = .warn warnEmptyMsg :=
  (empty_selection_warns "deleteSelected" [[{ dataId := some "1", checked := false }]]).mpr
    (by decide)

/-- Embedding of the select-all handler's loop body: set every row checkbox
of the table to the header's new checked value. -/
def setAllChecked (v : Bool) (rows : List SelRow) : List SelRow :=
  rows.map (fun r => { r with checked := v })

/-- Embedding of a user click on row checkbox `i`: set its checked state. -/
def setRowChecked (rows : List SelRow) (i : Nat) (v : Bool) : List SelRow :=
  match rows, i with
  | [], _ => []
  | r :: rest, 0 => { r with checked := v } :: rest
  | r :: rest, Nat.succ i => r :: setRowChecked rest i v

/-- Apply `f` to table number `t` of the page, leaving the others alone; this
is how every table-scoped handler acts on the page, because its
`table.querySelectorAll` calls only reach its own table's checkboxes. -/
def modifyTable (page : PageTables) (t : Nat) (f : List SelRow → List SelRow) : PageTables :=
  match page, t with
  | [], _ => []
  | rows :: rest, 0 => f rows :: rest
  | rows :: rest, Nat.succ t => rows :: modifyTable rest t f

/-- Embedding of a select-all header toggle on table `t` with new value `v`. -/
def selectAllChangePage (page : PageTables) (t : Nat) (v : Bool) : PageTables :=
  modifyTable page t (setAllChecked v)

/-- Embedding of a row-checkbox change on row `i` of table `t`. -/
def rowChangePage (page : PageTables) (t i : Nat) (v : Bool) : PageTables :=
  modifyTable page t (fun rows => setRowChecked rows i v)

/-- State of one batch-actions control: whether the `d-none` class is absent
and the number shown in the `selected-count` badge. -/
structure BatchActionsUI where
  visible : Bool
  badgeText : Nat
  deriving DecidableEq

/-- The control as first injected: hidden, badge text 0. -/
def uiInit : BatchActionsUI := { visible := false, badgeText := 0 }

/-- Embedding of `updateBatchActionButtons`: when the document-wide checked
count is positive, show the control and write the count into the badge;
otherwise hide the control, leaving the badge text untouched. -/
def updateBatchActionButtons (page : PageTables) (ui : BatchActionsUI) : BatchActionsUI :=
  if 0 < countCheckedPage page then
    { visible := true, badgeText := countCheckedPage page }
  else
    { visible := false, badgeText := ui.badgeText }

/-- Helper: modifying table `t` leaves every other table of the page as it
was. -/
theorem modifyTable_ne (page : PageTables) (t : Nat) (f : List SelRow → List SelRow)
    (u : Nat) (h : u ≠ t) : (modifyTable page t f)[u]? = page[u]? := by
  induction page generalizing t u with
  | nil => simp [modifyTable]
  | cons rows rest ih =>
    cases t with
    | zero =>
      cases u with
      | zero => exact absurd rfl h
      | succ u => simp [modifyTable]
    | succ t =>
      cases u with
      | zero => simp [modifyTable]
      | succ u =>
        simp only [modifyTable, List.getElem?_cons_succ]
        exact ih t u (fun he => h (by rw [he]))

/-- Helper: modifying the table at position `pre.length` acts on exactly the
table between `pre` and `post`. -/
theorem modifyTable_append (pre post : PageTables) (rows : List SelRow)
    (f : List SelRow → List SelRow) :
    modifyTable (pre ++ rows :: post) pre.length f = pre ++ f rows :: post := by
  induction pre with
  | nil => rfl
  | cons a l ih => simp [modifyTable, ih]

/-- Helper: the document-wide checked count splits over page concatenation. -/
theorem countCheckedPage_append (a b : PageTables) :
    countCheckedPage (a ++ b) = countCheckedPage a + countCheckedPage b := by
  simp [countCheckedPage, List.filter_append]

/-- Helper: the document-wide checked count of a cons splits off the first
table's count. -/
theorem countCheckedPage_cons (rows : List SelRow) (rest : PageTables) :
    countCheckedPage (rows :: rest) = countCheckedRows rows + countCheckedPage rest := by
  simp [countCheckedPage, countCheckedRows, List.filter_append]

/-- Helper: checking every row checkbox makes the table's count its size. -/
theorem countCheckedRows_setAll_true (rows : List SelRow) :
    countCheckedRows (setAllChecked true rows) = rows.length := by
  induction rows with
  | nil => rfl
  | cons r rest ih => simp [setAllChecked, countCheckedRows] at ih ⊢; exact ih

/-- Helper: unchecking every row checkbox makes the table's count zero. -/
theorem countCheckedRows_setAll_false (rows : List SelRow) :
    countCheckedRows (setAllChecked false rows) = 0 := by
  induction rows with
  | nil => rfl
  | cons r rest ih => simp [setAllChecked, countCheckedRows] at ih ⊢

/-- Helper: the document-wide ID collection is the concatenation of the
per-table collections, in table order. -/
theorem selectedIdsOf_eq_flatten (page : PageTables) :
    selectedIdsOf page = (page.map selectedIdsOfTable).flatten := by
  induction page with
  | nil => rfl
  | cons rows rest ih =>
    have hsplit : selectedIdsOf (rows :: rest) = selectedIdsOfTable rows ++ selectedIdsOf rest := by
      simp [selectedIdsOf, selectedIdsOfTable, List.filter_append]
    rw [hsplit, ih]
    simp

/-- Counterexample to claim C5 as stated: on a page with a second table that
has a checked row, toggling the one-row first table's header on makes the
badge show 2, not that table's row count 1; and unchecking a header hides
the control without rewriting the badge text to 0. -/
theorem header_toggle_badge_crosstable_cex :
    (updateBatchActionButtons
        (selectAllChangePage
          [[{ dataId := some "1", checked := false }],
           [{ dataId := some "2", checked := true }]] 0 true) uiInit).badgeText = 2 ∧
    List.length [({ dataId := some "1", checked := false } : SelRow)] = 1 ∧
    (2 : Nat) ≠ 1 ∧
    (updateBatchActionButtons
        (selectAllChangePage [[{ dataId := some "1", checked := true }]] 0 false)
        { visible := true, badgeText := 1 })
      = { visible := false, badgeText := 1 } := by decide

/-- Claim C5 as amended: a header toggle on table `t` sets all of that
table's row checkboxes to the header's value and touches no other table;
the badge then shows the document-wide checked count, so when every other
table has zero checked rows it shows N for a checked header on an N-row
table, and the control is hidden for an unchecked one. -/
theorem header_toggle_rows_and_badge (pre post : PageTables) (rows : List SelRow)
    (v : Bool) (ui : BatchActionsUI)
    (hpre : countCheckedPage pre = 0) (hpost : countCheckedPage post = 0) :
    selectAllChangePage (pre ++ rows :: post) pre.length v
      = pre ++ setAllChecked v rows :: post ∧
    (v = true → 0 < rows.length →
      updateBatchActionButtons (selectAllChangePage (pre ++ rows :: post) pre.length v) ui
        = { visible := true, badgeText := rows.length }) ∧
    (v = false →
      (updateBatchActionButtons
        (selectAllChangePage (pre ++ rows :: post) pre.length v) ui).visible = false) := by
  have hmod : selectAllChangePage (pre ++ rows :: post) pre.length v
      = pre ++ setAllChecked v rows :: post :=
    modifyTable_append pre post rows (setAllChecked v)
  have hcount : countCheckedPage (pre ++ setAllChecked v rows :: post)
      = countCheckedRows (setAllChecked v rows) := by
    rw [countCheckedPage_append, countCheckedPage_cons, hpre, hpost]
    omega
  refine ⟨hmod, ?_, ?_⟩
  · intro hv hn
    subst hv
    rw [hmod]
    unfold updateBatchActionButtons
    rw [hcount, countCheckedRows_setAll_true]
    simp [hn]
  · intro hv
    subst hv
    rw [hmod]
    unfold updateBatchActionButtons
    rw [hcount, countCheckedRows_setAll_false]
    simp

/-- Witness for C5 (amended): the theorem at a one-table page with one row,
header toggled on, both zero-count hypotheses discharged by rfl. -/
theorem header_toggle_rows_and_badge_instance :
    selectAllChangePage [[{ dataId := some "1", checked := false }]] 0 true
      = [setAllChecked true [{ dataId := some "1", checked := false }]] ∧
    (true = true → 0 < List.length [({ dataId := some "1", checked := false } : SelRow)] →
      updateBatchActionButtons
          (selectAllChangePage [[{ dataId := some "1", checked := false }]] 0 true) uiInit
        = { visible := true,
            badgeText := List.length [({ dataId := some "1", checked := false } : SelRow)] }) ∧
    (true = false →
      (updateBatchActionButtons
        (selectAllChangePage [[{ dataId := some "1", checked := false }]] 0 true)
        uiInit).visible = false) :=
  header_toggle_rows_and_badge [] [] [{ dataId := some "1", checked := false }] true uiInit
    rfl rfl

/-- Counterexample to claim C9 as stated: with two one-row tables each having
its row checked, the badge shows 2 while each table has 1 selected row,
and the dispatch ID list holds both tables' IDs, so badge and dispatch do
not reflect per-table selection state. -/
theorem selection_badge_global_cex :
    (updateBatchActionButtons
        [[{ dataId := some "1", checked := true }],
         [{ dataId := some "2", checked := true }]] uiInit).badgeText = 2 ∧
    countCheckedRows [({ dataId := some "1", checked := true } : SelRow)] = 1 ∧
    selectedIdsOf [[{ dataId := some "1", checked := true }],
                   [{ dataId := some "2", checked := true }]] = ["1", "2"] ∧
    (2 : Nat) ≠ 1 := by decide

/-- Claim C9 as amended: checkbox mutations are table-scoped — a row or
header toggle on table `t` leaves every other table's rows unchanged —
but the selected-count badge and the batch-action dispatch aggregate over
the whole document: the badge shows the page-wide checked count whenever
it is positive, and the dispatched ID list concatenates all tables'. -/
theorem table_events_frame_and_global (page : PageTables) (t i u : Nat) (v : Bool)
    (ui : BatchActionsUI) (h : u ≠ t) :
    (rowChangePage page t i v)[u]? = page[u]? ∧
    (selectAllChangePage page t v)[u]? = page[u]? ∧
    (updateBatchActionButtons page ui).visible = decide (0 < countCheckedPage page) ∧
    (0 < countCheckedPage page →
      (updateBatchActionButtons page ui).badgeText = countCheckedPage page) ∧
    selectedIdsOf page = (page.map selectedIdsOfTable).flatten := by
  refine ⟨modifyTable_ne page t _ u h, modifyTable_ne page t _ u h, ?_, ?_, ?_⟩
  · unfold updateBatchActionButtons
    by_cases h0 : 0 < countCheckedPage page <;> simp [h0]
  · intro h0
    unfold updateBatchActionButtons
    simp [h0]
  · exact selectedIdsOf_eq_flatten page

/-- Witness for C9 (amended): the theorem at a concrete two-table page, a
header toggle on table 0 observed from table 1. -/
theorem table_events_frame_and_global_instance :
    (rowChangePage [[{ dataId := some "1", checked := true }],
                    [{ dataId := some "2", checked := true }]] 0 0 false)[1]?
      = [[{ dataId := some "1", checked := true }],
         [{ dataId := some "2", checked := true }]][1]? ∧
    (selectAllChangePage [[{ dataId := some "1", checked := true }],
                          [{ dataId := some "2", checked := true }]] 0 false)[1]?
      = [[{ dataId := some "1", checked := true }],
         [{ dataId := some "2", checked := true }]][1]? ∧
    (updateBatchActionButtons [[{ dataId := some "1", checked := true }],
                               [{ dataId := some "2", checked := true }]] uiInit).visible
      = decide (0 < countCheckedPage [[{ dataId := some "1", checked := true }],
                                      [{ dataId := some "2", checked := true }]]) ∧
    (0 < countCheckedPage [[{ dataId := some "1", checked := true }],
                           [{ dataId := some "2", checked := true }]] →
      (updateBatchActionButtons [[{ dataId := some "1", checked := true }],
                                 [{ dataId := some "2", checked := true }]] uiInit).badgeText
        = countCheckedPage [[{ dataId := some "1", checked := true }],
                            [{ dataId := some "2", checked := true }]]) ∧
    selectedIdsOf [[{ dataId := some "1", checked := true }],
                   [{ dataId := some "2", checked := true }]]
      = ([[{ dataId := some "1", checked := true }],
          [{ dataId := some "2", checked := true }]].map selectedIdsOfTable).flatten :=
  table_events_frame_and_global
    [[{ dataId := some "1", checked := true }], [{ dataId := some "2", checked := true }]]
    0 0 1 false uiInit (by decide)

/-- Matches the regex class [a-z]. -/
def isLowerChar (c : Char) : Bool := decide ('a' ≤ c) && decide (c ≤ 'z')

/-- Matches the regex class [A-Z]. -/
def isUpperChar (c : Char) : Bool := decide ('A' ≤ c) && decide (c ≤ 'Z')

/-- Matches the regex class \d, i.e. [0-9]. -/
def isDigitChar (c : Char) : Bool := decide ('0' ≤ c) && decide (c ≤ '9')

/-- Matches the regex class [a-zA-Z]. -/
def isLetterChar (c : Char) : Bool := isLowerChar c || isUpperChar c

/-- Matches the regex class [a-zA-Z0-9]. -/
def isAlnumChar (c : Char) : Bool := isLetterChar c || isDigitChar c

/-- Matches the regex class [^a-zA-Z0-9]. -/
def isSpecialChar (c : Char) : Bool := !isAlnumChar c

/-- Whether some character matching `p` is followed, strictly later in the
list, by a character matching `q`; this is the test of a regex of the
shape /P.*Q/. -/
def existsSeq (p q : Char → Bool) : List Char → Bool
  | [] => false
  | c :: rest => (p c && rest.any q) || existsSeq p q rest

/-- Embedding of `checkPasswordStrength(password)`: length scores, character
diversity scores and complexity scores are added and the total is capped
by `Math.min(score, 100)`. -/
def checkPasswordStrength (password : String) : Int :=
  let cs := password.data
  let score : Int :=
    (if password.length ≥ 8 then 25 else 0)
    + (if password.length ≥ 12 then 15 else 0)
    + (if cs.any isLowerChar then 10 else 0)
    + (if cs.any isUpperChar then 10 else 0)
    + (if cs.any isDigitChar then 10 else 0)
    + (if cs.any isSpecialChar then 15 else 0)
    + (if existsSeq isLowerChar isUpperChar cs || existsSeq isUpperChar isLowerChar cs
        then 5 else 0)
    + (if existsSeq isDigitChar isLetterChar cs || existsSeq isLetterChar isDigitChar cs
        then 5 else 0)
    + (if existsSeq isSpecialChar isAlnumChar cs || existsSeq isAlnumChar isSpecialChar cs
        then 5 else 0)
  min score 100

/-- The DOM attributes written by `updatePasswordStrengthIndicator`: the
progress-bar width percentage and aria-valuenow, the bar's class string,
the label text and its class. -/
structure StrengthIndicator where
  width : Int
  ariaValueNow : Int
  barClass : String
  text : String
  textClass : String
  deriving DecidableEq

/-- Embedding of `updatePasswordStrengthIndicator`: write the strength into
width and aria-valuenow, then pick color and label by threshold. -/
def updatePasswordStrengthIndicator (strength : Int) : StrengthIndicator :=
  if strength < 30 then
    { width := strength, ariaValueNow := strength, barClass := "progress-bar bg-danger",
      text := "Very Weak", textClass := "text-danger" }
  else if strength < 60 then
    { width := strength, ariaValueNow := strength, barClass := "progress-bar bg-warning",
      text := "Weak", textClass := "text-warning" }
  else if strength < 80 then
    { width := strength, ariaValueNow := strength, barClass := "progress-bar bg-info",
      text := "Fair", textClass := "text-info" }
  else
    { width := strength, ariaValueNow := strength, barClass := "progress-bar bg-success",
      text := "Strong", textClass := "text-success" }

/-- Result of the password field's input handler: either the strength meter
container gets the `d-none` class, or it is shown with the indicator
updated from `checkPasswordStrength`. -/
inductive MeterUpdate where
  | hidden
  | shown (ind : StrengthIndicator)
  deriving DecidableEq

/-- Embedding of the input listener in `enhancePasswordFields`: a truthy
(non-empty) value shows and updates the meter, an empty value hides it. -/
def passwordInputEvent (value : String) : MeterUpdate :=
  if value.isEmpty then .hidden
  else .shown (updatePasswordStrengthIndicator (checkPasswordStrength value))

/-- Claim C8: the password "Ab1!Ab1!" scores at least the Strong threshold 80
and is labelled Strong, and an empty input hides the strength meter. -/
theorem password_strength_examples :
    checkPasswordStrength "Ab1!Ab1!" ≥ 80 ∧
    (updatePasswordStrengthIndicator (checkPasswordStrength "Ab1!Ab1!")).text = "Strong" ∧
    passwordInputEvent "Ab1!Ab1!"
      = .shown (updatePasswordStrengthIndicator (checkPasswordStrength "Ab1!Ab1!")) ∧
    passwordInputEvent "" = .hidden := by
  refine ⟨by decide, by decide, rfl, rfl⟩

/-- Helper: an if-then-else between a nonnegative score component and zero is
nonnegative. -/
theorem score_component_nonneg (c : Prop) [Decidable c] (a : Int) (ha : 0 ≤ a) :
    0 ≤ if c then a else 0 := by
  split
  · exact ha
  · exact le_refl 0

/-- Helper: the indicator writes exactly the given strength into the
progress-bar width and aria-valuenow in every threshold branch. -/
theorem indicator_writes_strength (strength : Int) :
    (updatePasswordStrengthIndicator strength).width = strength ∧
    (updatePasswordStrengthIndicator strength).ariaValueNow = strength := by
  unfold updatePasswordStrengthIndicator
  split
  · exact ⟨rfl, rfl⟩
  · split
    · exact ⟨rfl, rfl⟩
    · split
      · exact ⟨rfl, rfl⟩
      · exact ⟨rfl, rfl⟩

/-- Claim C10: for every input string the strength score is an integer
between 0 and 100, and the indicator writes exactly that value into the
progress bar's width and aria-valuenow. -/
theorem password_strength_bounds (password : String) :
    0 ≤ checkPasswordStrength password ∧ checkPasswordStrength password ≤ 100 ∧
    (updatePasswordStrengthIndicator (checkPasswordStrength password)).width
      = checkPasswordStrength password ∧
    (updatePasswordStrengthIndicator (checkPasswordStrength password)).ariaValueNow
      = checkPasswordStrength password := by
  refine ⟨?_, ?_, (indicator_writes_strength _).1, (indicator_writes_strength _).2⟩
  · unfold checkPasswordStrength
    refine le_min ?_ (by norm_num)
    repeat' refine add_nonneg ?_ ?_
    all_goals exact score_component_nonneg _ _ (by norm_num)
  · unfold checkPasswordStrength
    exact min_le_right _ _
